import Mathlib

/-!
Verification development for the build orchestration layer of the nest-cli
repository (`src/actions/build.action.ts`).

The TypeScript source is shallowly embedded: JavaScript runtime values are
modelled by `JsValue`, thrown values by `JsErr` (distinguishing `Error`
instances from other thrown values), fallible steps by `Except`, and the
external collaborators (configuration loader, tsconfig provider, workspace
utilities, assets manager, the three compilation strategies, and the
CommonJS `require` used for webpack configuration files) by a record of
injected functions (`Collabs`).  Each call into a collaborator that the
claims observe is also recorded in a trace of `Event`s, so that ordering and
exclusivity of strategy dispatch are provable statements about the trace.
-/

/-- A JavaScript runtime value, restricted to the shapes this code
manipulates: `undefined`, `null`, booleans, strings, and plain objects.
Objects are represented as association lists with distinct keys (a finite
map view of a runtime object). -/
inductive JsValue where
  | vUndefined
  | vNull
  | vBool (b : Bool)
  | vStr (s : String)
  | vObj (fields : List (String × JsValue))
deriving Repr

/-- A thrown JavaScript value: either an `Error` instance carrying a message
(the only case this code constructs itself) or an arbitrary non-`Error`
thrown value (the `handle` catch block branches on `instanceof Error`). -/
inductive JsErr where
  | errObj (message : String)
  | nonError (v : JsValue)
deriving Repr

/-- One parsed command-line argument, positional or optional: the `Input`
interface from `src/commands` (`\x7bname, value\x7d`). -/
structure Input where
  name : String
  value : JsValue
deriving Repr

/-- Field lookup in the association-list view of an object.  Runtime objects
have at most one binding per key, so first-match lookup is exact. -/
def lookupField (fs : List (String × JsValue)) (k : String) : Option JsValue :=
  match fs.find? (fun p => p.1 == k) with
  | some p => some p.2
  | none => none

/-- JavaScript truthiness for the modelled value shapes (`!!v`):
`undefined`, `null`, `false` and the empty string are falsy; every object is
truthy. -/
def jsTruthy : JsValue → Bool
  | .vUndefined => false
  | .vNull => false
  | .vBool b => b
  | .vStr s => !(s == "")
  | .vObj _ => true

/-- Whether a value is exactly `undefined`. -/
def isUndefinedB : JsValue → Bool
  | .vUndefined => true
  | _ => false

/-- JavaScript strict equality (`===`) on the modelled values.  Primitives
compare by content.  Two object values compare by reference in JavaScript;
the model takes distinct `vObj` terms to denote distinct objects, so object
comparison yields `false` here (no claim depends on object identity). -/
def jsStrictEq : JsValue → JsValue → Bool
  | .vUndefined, .vUndefined => true
  | .vNull, .vNull => true
  | .vBool a, .vBool b => a == b
  | .vStr a, .vStr b => a == b
  | _, _ => false

/-- JavaScript `ToString` coercion for the modelled value shapes, as used
when a value stands as a computed property key. -/
def jsToString : JsValue → String
  | .vUndefined => "undefined"
  | .vNull => "null"
  | .vBool b => if b then "true" else "false"
  | .vStr s => s
  | .vObj _ => "[object Object]"

/-- Optional-chaining style member read (`v?.[k]`): never throws; yields
`undefined` when the receiver is not an object or lacks the key.  Used by
the value resolver, which by contract never throws. -/
def jsGetSafe (v : JsValue) (k : String) : JsValue :=
  match v with
  | .vObj fs => (lookupField fs k).getD .vUndefined
  | _ => .vUndefined

/-- Safe navigation along a path of keys. -/
def jsGetPath (v : JsValue) (path : List String) : JsValue :=
  path.foldl jsGetSafe v

/-- Plain member read (`v.k`): reading a property of `undefined` or `null`
throws a `TypeError`; reading an absent key of an object yields `undefined`;
reading any of the keys this code uses off another primitive yields
`undefined`. -/
def jsGetMember (v : JsValue) (k : String) : Except JsErr JsValue :=
  match v with
  | .vUndefined =>
      .error (.errObj ("Cannot read properties of undefined (reading " ++ k ++ ")"))
  | .vNull =>
      .error (.errObj ("Cannot read properties of null (reading " ++ k ++ ")"))
  | .vObj fs => .ok ((lookupField fs k).getD .vUndefined)
  | _ => .ok .vUndefined

/-- Splits a dotted property path on the dot character (accumulator over the
character list, so it evaluates by kernel reduction). -/
def splitDotsAux : List Char → List Char → List String
  | [], acc => [String.mk acc.reverse]
  | c :: cs, acc =>
      if c == '.' then String.mk acc.reverse :: splitDotsAux cs []
      else splitDotsAux cs (c :: acc)

/-- Splits a dotted property path such as `compilerOptions.tsConfigPath`
into its segments. -/
def splitDots (s : String) : List String :=
  splitDotsAux s.data []

/-- First option in the list whose `name` equals the requested key
(`options.find(option => option.name === key)`). -/
def findOption (options : List Input) (key : String) : Option Input :=
  options.find? (fun o => o.name == key)

/-- Modelled from the spec: `getValueOrDefault` lives in
`lib/compiler/helpers/get-value-or-default.ts`, which is not under `src/`;
only its call sites in `src/actions/build.action.ts` are visible.  Following
the spec (section 4.1), the resolver consults, in order: the explicit
command-line option matching the given option name (counted as present when
its value is not `undefined`; an empty string counts as present), the
application-specific override section of the configuration keyed by the
application name (the section is taken to be named `projects`) at the given
dotted path, and the global value of the configuration at the same dotted
path.  The call sites in `src/` pass no explicit fallback default, so
absence at every level falls through to `undefined`.  The resolver never
throws. -/
def getValueOrDefault (configuration : JsValue) (propertyPath : String)
    (appName : JsValue) (key : String) (options : List Input) : JsValue :=
  let fromOption : JsValue :=
    match findOption options key with
    | some o => o.value
    | none => .vUndefined
  if isUndefinedB fromOption then
    let appValue :=
      jsGetPath (jsGetSafe (jsGetSafe configuration "projects") (jsToString appName))
        (splitDots propertyPath)
    if isUndefinedB appValue then jsGetPath configuration (splitDots propertyPath)
    else appValue
  else fromOption

/-- Modelled from the spec: the process-wide default output directory
constant `defaultOutDir` is imported from `lib/configuration/defaults`,
which is not under `src/`.  The spec fixes only that it is a process-wide
constant; its value is taken to be the string `dist`. -/
def defaultOutDir : JsValue := .vStr "dist"

/-- The configuration factory literal substituted in the catch branch of
`getWebpackConfigFactoryByPath` when the default path fails to load.  In the
source it is the arrow function that ignores its argument (destructuring it
to nothing) and returns a fresh empty object — it is a constant function to
the empty configuration, not the identity. -/
def fallbackFactoryFn (_config : JsValue) : JsValue := .vObj []

/-- The value produced by `getWebpackConfigFactoryByPath`: either the module
value loaded by `require` (an object or a function; the orchestrator does
not inspect which, so it stays opaque here) or the substituted fallback
factory literal. -/
inductive WebpackModuleValue where
  | externalModule (m : JsValue)
  | fallbackFactory
deriving Repr

/-- Applying a webpack configuration factory to a base configuration.  Only
the fallback literal has evaluable behaviour inside this unit; an externally
loaded module is opaque. -/
def WebpackModuleValue.applyTo : WebpackModuleValue → JsValue → Option JsValue
  | .fallbackFactory, config => some (fallbackFactoryFn config)
  | .externalModule _, _ => none

/-- `path.join(cwd, p)`: requires a string argument (Node throws a
`TypeError` for non-strings, including `undefined`).  Path normalisation is
abstracted to plain concatenation; no claim depends on it. -/
def jsJoin (cwd : String) (p : JsValue) : Except JsErr String :=
  match p with
  | .vStr s => .ok (cwd ++ "/" ++ s)
  | _ => .error (.errObj "The path argument must be of type string")

/-- `getWebpackConfigFactoryByPath(webpackPath, defaultPath)` from
`src/actions/build.action.ts` (lines 122-137), with the CommonJS `require`
injected as a parameter.  The `join` runs before the `try` block, so its
failure always propagates.  On a `require` failure the error is rethrown
when the requested path differs (strictly) from the default path, and the
fallback factory literal is substituted when the paths coincide. -/
def getWebpackConfigFactoryByPath
    (requireModule : String → Except JsErr JsValue) (cwd : String)
    (webpackPath defaultPath : JsValue) : Except JsErr WebpackModuleValue :=
  match jsJoin cwd webpackPath with
  | .error e => .error e
  | .ok pathToWebpackFile =>
      match requireModule pathToWebpackFile with
      | .ok m => .ok (.externalModule m)
      | .error err =>
          if jsStrictEq webpackPath defaultPath then .ok .fallbackFactory
          else .error err

/-- The external collaborators of `BuildAction`, injected as functions.
`loaderLoad` is `ConfigurationLoader.load`, `tsConfigGetByConfigFilename` is
`TsConfigProvider.getByConfigFilename`, `deleteOutDirIfEnabled` and
`copyAssets` are the `WorkspaceUtils`/`AssetsManager` side effects,
`requireModule` is the CommonJS `require`, and the last three are the
results of the three compilation strategies (`WebpackCompiler.run`,
`WatchCompiler.run`, `Compiler.run`).  Strategy argument lists follow the
source; the optional `onSuccess` callback is passed through to the
strategies unexamined and is not modelled. -/
structure Collabs where
  cwd : String
  loaderLoad : JsValue → Except JsErr JsValue
  tsConfigGetByConfigFilename : JsValue → Except JsErr JsValue
  deleteOutDirIfEnabled : JsValue → JsValue → JsValue → Except JsErr Unit
  copyAssets : JsValue → JsValue → JsValue → Except JsErr Unit
  requireModule : String → Except JsErr JsValue
  webpackCompilerRun :
    JsValue → WebpackModuleValue → JsValue → JsValue → Bool → Bool → Except JsErr Unit
  watchCompilerRun : JsValue → JsValue → JsValue → Except JsErr Unit
  compilerRun : JsValue → JsValue → JsValue → Except JsErr Unit

/-- An observable collaborator invocation recorded by the embedding of
`runBuild`: the pre-dispatch side effects and the three strategy calls, each
with the arguments the claims talk about. -/
inductive Event where
  | deleteOutDir (appName outDir : JsValue)
  | copyAssets (appName outDir : JsValue)
  | webpackRun (factoryOrConfig : WebpackModuleValue)
      (pathToTsconfig appName : JsValue) (isDebugEnabled watchMode : Bool)
  | watchRun (pathToTsconfig appName : JsValue)
  | compilerRun (pathToTsconfig appName : JsValue)
deriving Repr

/-- Whether an event is the invocation of one of the three compilation
strategies. -/
def isStrategyEvent : Event → Bool
  | .webpackRun _ _ _ _ _ => true
  | .watchRun _ _ => true
  | .compilerRun _ _ => true
  | _ => false

/-- Whether an event is the bundling strategy invocation. -/
def isWebpackRunEvent : Event → Bool
  | .webpackRun _ _ _ _ _ => true
  | _ => false

/-- Whether an event is the watch strategy invocation. -/
def isWatchRunEvent : Event → Bool
  | .watchRun _ _ => true
  | _ => false

/-- Whether an event is the one-shot strategy invocation. -/
def isCompilerRunEvent : Event → Bool
  | .compilerRun _ _ => true
  | _ => false

/-- The values computed by the straight-line part of `runBuild` before the
pre-dispatch side effects (lines 62-89 of the source): the loaded
configuration, the application name, the resolved tsconfig path, the output
directory, and the resolved webpack-enabled value. -/
structure Prepared where
  configuration : JsValue
  appName : JsValue
  pathToTsconfig : JsValue
  outDir : JsValue
  isWebpackEnabled : JsValue
deriving Repr

/-- The resolution prefix of `runBuild`: extract the `config` option value
(`options.find(...)!.value` — reading `value` of `undefined` throws when the
option is absent), load the configuration, extract the `app` input value
(same unchecked pattern), resolve the tsconfig path, fetch and destructure
the tsconfig (`const \x7b options: tsOptions \x7d = ...`), compute
`tsOptions.outDir || defaultOutDir`, and resolve the webpack-enabled value.
No observable side effect of this prefix is claim-relevant, so it returns
only the computed values or the first error. -/
def prepare (C : Collabs) (inputs options : List Input) : Except JsErr Prepared :=
  match findOption options "config" with
  | none => .error (.errObj "Cannot read properties of undefined (reading value)")
  | some configInput =>
      match C.loaderLoad configInput.value with
      | .error e => .error e
      | .ok configuration =>
          match findOption inputs "app" with
          | none => .error (.errObj "Cannot read properties of undefined (reading value)")
          | some appInput =>
              let appName := appInput.value
              let pathToTsconfig :=
                getValueOrDefault configuration "compilerOptions.tsConfigPath"
                  appName "path" options
              match C.tsConfigGetByConfigFilename pathToTsconfig with
              | .error e => .error e
              | .ok tsConfigResult =>
                  match jsGetMember tsConfigResult "options" with
                  | .error e => .error e
                  | .ok tsOptions =>
                      match jsGetMember tsOptions "outDir" with
                      | .error e => .error e
                      | .ok outDirRaw =>
                          let outDir :=
                            if jsTruthy outDirRaw then outDirRaw else defaultOutDir
                          let isWebpackEnabled :=
                            getValueOrDefault configuration "compilerOptions.webpack"
                              appName "webpack" options
                          .ok ⟨configuration, appName, pathToTsconfig, outDir,
                               isWebpackEnabled⟩

/-- The dispatch tail of `runBuild` (lines 91-119 of the source): if the
resolved webpack value is truthy it resolves the webpack-config path, reads
the document default path via the unchecked accesses
`configuration.compilerOptions!.webpackConfigPath!` (argument evaluation, so
any `TypeError` there precedes the load), resolves the factory, and runs the
bundling strategy; otherwise it runs the watch or one-shot strategy
according to `watchMode`.  Returns the strategy events it emits and the
outcome. -/
def dispatchPart (C : Collabs) (p : Prepared) (options : List Input)
    (watchMode isDebugEnabled : Bool) : List Event × Except JsErr Unit :=
  if jsTruthy p.isWebpackEnabled then
    let webpackPath :=
      getValueOrDefault p.configuration "compilerOptions.webpackConfigPath"
        p.appName "webpackPath" options
    match jsGetMember p.configuration "compilerOptions" with
    | .error e => ([], .error e)
    | .ok co =>
        match jsGetMember co "webpackConfigPath" with
        | .error e => ([], .error e)
        | .ok defaultPath =>
            match getWebpackConfigFactoryByPath C.requireModule C.cwd
                webpackPath defaultPath with
            | .error e => ([], .error e)
            | .ok factory =>
                ([.webpackRun factory p.pathToTsconfig p.appName isDebugEnabled
                    watchMode],
                 C.webpackCompilerRun p.configuration factory p.pathToTsconfig
                   p.appName isDebugEnabled watchMode)
  else if watchMode then
    ([.watchRun p.pathToTsconfig p.appName],
     C.watchCompilerRun p.configuration p.pathToTsconfig p.appName)
  else
    ([.compilerRun p.pathToTsconfig p.appName],
     C.compilerRun p.configuration p.pathToTsconfig p.appName)

/-- `runBuild(inputs, options, watchMode, isDebugEnabled, onSuccess)` from
`src/actions/build.action.ts` (lines 56-119), returning the trace of
observable collaborator invocations together with the normal or thrown
outcome.  After the resolution prefix (`prepare`) it invokes output
directory deletion, then asset copying (each invocation is recorded before
its possible failure propagates), then the strategy dispatch
(`dispatchPart`). -/
def runBuild (C : Collabs) (inputs options : List Input)
    (watchMode isDebugEnabled : Bool) : List Event × Except JsErr Unit :=
  match prepare C inputs options with
  | .error e => ([], .error e)
  | .ok p =>
      match C.deleteOutDirIfEnabled p.configuration p.appName p.outDir with
      | .error e => ([.deleteOutDir p.appName p.outDir], .error e)
      | .ok _ =>
          match C.copyAssets p.configuration p.appName p.outDir with
          | .error e =>
              ([.deleteOutDir p.appName p.outDir,
                .copyAssets p.appName p.outDir], .error e)
          | .ok _ =>
              let d := dispatchPart C p options watchMode isDebugEnabled
              (.deleteOutDir p.appName p.outDir ::
                 .copyAssets p.appName p.outDir :: d.1, d.2)

/-- The watch-mode flag computed at the top of `handle` (lines 43-45):
`!!(watchModeOption && watchModeOption.value)` where `watchModeOption` is
the first option named `watch`. -/
def watchModeOfOptions (options : List Input) : Bool :=
  match options.find? (fun o => o.name == "watch") with
  | some o => jsTruthy o.value
  | none => false

/-- Modelled from the spec: the user-facing error banner `ERROR_PREFIX` is
imported from `lib/ui`, which is not under `src/`; only its use in the catch
block is visible.  Its exact styling is irrelevant to the claims. -/
def errorBanner : String := "Error"

/-- ANSI red colouring as applied by `chalk.red`. -/
def chalkRed (s : String) : String := "\x1b[31m" ++ s ++ "\x1b[39m"

/-- The message rendered by the catch block of `handle`: `Error` instances
are printed as the banner followed by their message, any other thrown value
is printed red.  (The `console.log` versus `console.error` channel
distinction is abstracted to the rendered string.) -/
def formatCaughtError : JsErr → String
  | .errObj m => "\n" ++ errorBanner ++ " " ++ m ++ "\n"
  | .nonError v => "\n" ++ chalkRed (jsToString v) ++ "\n"

/-- `handle(inputs, options)` from `src/actions/build.action.ts` (lines
41-53): computes the watch-mode flag, awaits `runBuild` inside a single
`try`, and on any thrown value renders a user-facing message instead of
rethrowing.  The result type still admits `Except.error`, so that "never
propagates" is a statement about the definition, not about the type: the
returned pair is the event trace and the rendered message, if any. -/
def handle (C : Collabs) (inputs options : List Input) :
    Except JsErr (List Event × Option String) :=
  match runBuild C inputs options (watchModeOfOptions options) false with
  | (tr, .ok _) => .ok (tr, none)
  | (tr, .error e) => .ok (tr, some (formatCaughtError e))

/-- Whether an `Except` outcome is a normal completion. -/
def exceptIsOk : Except JsErr Unit → Bool
  | .ok _ => true
  | .error _ => false

/-- A configuration document as the loader would produce for a typical
`nest-cli.json`, used by concrete instantiations below. -/
def sampleConfiguration : JsValue :=
  .vObj [("compilerOptions",
          .vObj [("tsConfigPath", .vStr "tsconfig.build.json"),
                 ("webpackConfigPath", .vStr "webpack.config.js")])]

/-- A collaborator bundle in which every external call succeeds and webpack
is not enabled by the loaded configuration; used by concrete
instantiations below. -/
def okCollabs : Collabs where
  cwd := "/proj"
  loaderLoad := fun _ => .ok sampleConfiguration
  tsConfigGetByConfigFilename := fun _ =>
    .ok (.vObj [("options", .vObj [("outDir", .vStr "build")])])
  deleteOutDirIfEnabled := fun _ _ _ => .ok ()
  copyAssets := fun _ _ _ => .ok ()
  requireModule := fun _ => .ok (.vObj [])
  webpackCompilerRun := fun _ _ _ _ _ _ => .ok ()
  watchCompilerRun := fun _ _ _ => .ok ()
  compilerRun := fun _ _ _ => .ok ()

/-- The positional inputs of a typical invocation: the `app` target. -/
def sampleInputs : List Input := [⟨"app", .vStr "api"⟩]

/-- The options of a typical invocation: only the `config` path. -/
def sampleOptions : List Input := [⟨"config", .vStr "nest-cli.json"⟩]

/-- C1.  The claim states that the factory substituted on a default-path
load failure is an identity.  It is not: the substituted literal is a
constant function to the empty object.  Concretely, with `require` failing
and the requested path equal to the default path, `getWebpackConfigFactoryByPath`
returns the fallback factory, and applying that factory to the non-empty
base configuration `\x7b target: "node" \x7d` does not return that
configuration. -/
theorem c1_counterexample :
    getWebpackConfigFactoryByPath
        (fun _ => .error (.errObj "Cannot find module"))
        "/proj" (.vStr "webpack.config.js") (.vStr "webpack.config.js")
      = .ok .fallbackFactory ∧
    WebpackModuleValue.applyTo .fallbackFactory (.vObj [("target", .vStr "node")])
      ≠ some (.vObj [("target", .vStr "node")]) := by
  refine ⟨rfl, ?_⟩
  simp [WebpackModuleValue.applyTo, fallbackFactoryFn]

/-- C1 (amended).  When the webpack-config file fails to load and the
requested path strictly equals the default path, the substituted
configuration factory is the constant function to the empty configuration
object: applying it to any base configuration `c` yields the empty object
(so it returns `c` unchanged only when `c` is itself empty). -/
theorem c1_default_fallback_is_constant_empty
    (req : String → Except JsErr JsValue) (cwd : String) (wp dp : JsValue)
    (s : String) (e : JsErr)
    (hjoin : jsJoin cwd wp = .ok s) (hreq : req s = .error e)
    (heq : jsStrictEq wp dp = true) (c : JsValue) :
    getWebpackConfigFactoryByPath req cwd wp dp = .ok .fallbackFactory ∧
    WebpackModuleValue.applyTo .fallbackFactory c = some (.vObj []) := by
  constructor
  · simp [getWebpackConfigFactoryByPath, hjoin, hreq, heq]
  · rfl

/-- Concrete instantiation of `c1_default_fallback_is_constant_empty`. -/
theorem c1_default_fallback_witness :
    jsJoin "/proj" (.vStr "webpack.config.js") = .ok "/proj/webpack.config.js" ∧
    (fun _ : String =>
        (Except.error (JsErr.errObj "Cannot find module") : Except JsErr JsValue))
      "/proj/webpack.config.js" = .error (.errObj "Cannot find module") ∧
    jsStrictEq (.vStr "webpack.config.js") (.vStr "webpack.config.js") = true ∧
    (getWebpackConfigFactoryByPath
        (fun _ => .error (.errObj "Cannot find module")) "/proj"
        (.vStr "webpack.config.js") (.vStr "webpack.config.js")
      = .ok .fallbackFactory ∧
     WebpackModuleValue.applyTo .fallbackFactory (.vObj [("port", .vStr "3000")])
      = some (.vObj [])) :=
  ⟨rfl, rfl, rfl,
   c1_default_fallback_is_constant_empty
     (fun _ => .error (.errObj "Cannot find module")) "/proj"
     (.vStr "webpack.config.js") (.vStr "webpack.config.js")
     "/proj/webpack.config.js" (.errObj "Cannot find module") rfl rfl rfl
     (.vObj [("port", .vStr "3000")])⟩

/-- C8.  If the options list carries an option with the requested name
whose value is set (not `undefined`), the resolver returns that value
verbatim, for every configuration document, application name and dotted
path — configuration content is never consulted. -/
theorem c8_explicit_option_wins (configuration appName : JsValue)
    (propertyPath key : String) (options : List Input) (o : Input)
    (hfind : findOption options key = some o)
    (hset : isUndefinedB o.value = false) :
    getValueOrDefault configuration propertyPath appName key options = o.value := by
  simp [getValueOrDefault, hfind, hset]

/-- Concrete instantiation of `c8_explicit_option_wins`: the command-line
`webpack` option wins over a configuration that sets the same path to the
opposite value. -/
theorem c8_explicit_option_witness :
    findOption [⟨"webpack", .vBool true⟩] "webpack"
      = some ⟨"webpack", .vBool true⟩ ∧
    isUndefinedB (JsValue.vBool true) = false ∧
    getValueOrDefault
        (.vObj [("compilerOptions", .vObj [("webpack", .vBool false)])])
        "compilerOptions.webpack" (.vStr "api") "webpack"
        [⟨"webpack", .vBool true⟩]
      = .vBool true :=
  ⟨rfl, rfl,
   c8_explicit_option_wins
     (.vObj [("compilerOptions", .vObj [("webpack", .vBool false)])])
     (.vStr "api") "compilerOptions.webpack" "webpack"
     [⟨"webpack", .vBool true⟩] ⟨"webpack", .vBool true⟩ rfl rfl⟩

/-- C10.  The claim states the watch flag is true exactly when the options
list contains an element named `watch` with a truthy value.  The source
consults only the first element named `watch` (`options.find(...)`), so the
claim fails on a list whose first `watch` option is falsy while a later one
is truthy: the computed flag is `false` although a truthy `watch` element is
present. -/
theorem c10_counterexample :
    watchModeOfOptions [⟨"watch", .vBool false⟩, ⟨"watch", .vBool true⟩] = false ∧
    (⟨"watch", .vBool true⟩ : Input) ∈
      [(⟨"watch", .vBool false⟩ : Input), ⟨"watch", .vBool true⟩] ∧
    Input.name ⟨"watch", .vBool true⟩ = "watch" ∧
    jsTruthy (Input.value ⟨"watch", .vBool true⟩) = true :=
  ⟨rfl, List.Mem.tail _ (List.Mem.head _), rfl, rfl⟩

/-- The watch-mode flag equals the truthiness of the value of the first
element named `watch`: helper for the amended C10, by induction on the
options list. -/
lemma watchModeOfOptions_first_match (options : List Input) (i : Nat)
    (hi : i < options.length)
    (hname : (options.get ⟨i, hi⟩).name = "watch")
    (hfirst : (options.take i).all (fun x => !(x.name == "watch")) = true) :
    watchModeOfOptions options = jsTruthy (options.get ⟨i, hi⟩).value := by
  induction options generalizing i with
  | nil => exact absurd hi (Nat.not_lt_zero i)
  | cons a l ih =>
      cases i with
      | zero =>
          have hname2 : a.name = "watch" := hname
          show watchModeOfOptions (a :: l) = jsTruthy a.value
          simp [watchModeOfOptions, hname2]
      | succ j =>
          have hj : j < l.length := Nat.lt_of_succ_lt_succ hi
          rw [List.take_succ_cons, List.all_cons, Bool.and_eq_true] at hfirst
          obtain ⟨ha, hrest⟩ := hfirst
          have ha2 : (a.name == "watch") = false := by
            simpa using ha
          have hskip : watchModeOfOptions (a :: l) = watchModeOfOptions l := by
            simp [watchModeOfOptions, ha2]
          rw [hskip]
          exact ih j hj hname hrest

/-- When no element of the options list is named `watch`, the find yields
`undefined` and the watch-mode flag is false: helper for the amended C10. -/
lemma watchModeOfOptions_absent (options : List Input)
    (h : ∀ o ∈ options, o.name ≠ "watch") :
    watchModeOfOptions options = false := by
  have hnone : options.find? (fun o => o.name == "watch") = none :=
    List.find?_eq_none.mpr (fun x hx => by simp [h x hx])
  simp [watchModeOfOptions, hnone]

/-- C10 (amended).  The watch-mode flag passed to `runBuild` equals the
truthiness of the value of the first element named `watch` in the options
list, and absence of any element named `watch` yields `false` (the find
yields `undefined`, so `!!(watchModeOption && watchModeOption.value)` is
`false`).  Under the documented caller invariant that option names are
unique, this coincides with the claim as stated. -/
theorem c10_watch_flag_first_or_absent (options : List Input) :
    ((∀ o ∈ options, o.name ≠ "watch") → watchModeOfOptions options = false) ∧
    (∀ i (hi : i < options.length),
      (options.get ⟨i, hi⟩).name = "watch" →
      (options.take i).all (fun x => !(x.name == "watch")) = true →
      watchModeOfOptions options = jsTruthy (options.get ⟨i, hi⟩).value) :=
  ⟨fun h => watchModeOfOptions_absent options h,
   fun i hi hname hfirst =>
     watchModeOfOptions_first_match options i hi hname hfirst⟩

/-- Concrete instantiation of `c10_watch_flag_first_or_absent`, exercising
both parts: an options list with no `watch` element yields `false`, and an
options list whose first element is a truthy `watch` option yields that
truthiness. -/
theorem c10_watch_flag_witness :
    watchModeOfOptions [⟨"config", JsValue.vStr "nest-cli.json"⟩] = false ∧
    watchModeOfOptions [⟨"watch", JsValue.vBool true⟩] =
      jsTruthy (([(⟨"watch", JsValue.vBool true⟩ : Input)].get
        ⟨0, Nat.zero_lt_one⟩).value) :=
  ⟨(c10_watch_flag_first_or_absent
      [⟨"config", JsValue.vStr "nest-cli.json"⟩]).1
     (by
       intro o ho
       rw [List.mem_singleton] at ho
       subst ho
       decide),
   (c10_watch_flag_first_or_absent [⟨"watch", JsValue.vBool true⟩]).2 0
     Nat.zero_lt_one rfl rfl⟩

/-- C7.  If the options list has no element named `config`, or the inputs
list has no element named `app`, `runBuild` raises an error (the unchecked
`find(...)!.value` dereference, or, when the loader itself fails first, the
load error) and performs no collaborator invocation at all — in particular
no compilation strategy is dispatched. -/
theorem c7_missing_required_field_raises (C : Collabs)
    (inputs options : List Input) (watchMode isDebugEnabled : Bool)
    (h : findOption options "config" = none ∨ findOption inputs "app" = none) :
    (runBuild C inputs options watchMode isDebugEnabled).1 = [] ∧
    exceptIsOk (runBuild C inputs options watchMode isDebugEnabled).2 = false := by
  rcases h with h | h
  · simp [runBuild, prepare, h, exceptIsOk]
  · rcases hc : findOption options "config" with _ | cIn
    · simp [runBuild, prepare, hc, exceptIsOk]
    · rcases hl : C.loaderLoad cIn.value with e | cfg
      · simp [runBuild, prepare, hc, hl, exceptIsOk]
      · simp [runBuild, prepare, hc, hl, h, exceptIsOk]

/-- Concrete instantiation of `c7_missing_required_field_raises`: the
`app` input is absent. -/
theorem c7_missing_field_witness :
    (findOption sampleOptions "config" = none ∨
     findOption ([] : List Input) "app" = none) ∧
    ((runBuild okCollabs [] sampleOptions false false).1 = [] ∧
     exceptIsOk (runBuild okCollabs [] sampleOptions false false).2 = false) :=
  ⟨Or.inr rfl,
   c7_missing_required_field_raises okCollabs [] sampleOptions false false
     (Or.inr rfl)⟩

/-- C5.  Whenever the resolve-and-dispatch sequence (`runBuild`, with the
watch flag `handle` computes and debug disabled) raises an error, `handle`
returns normally — it never propagates the error to its caller — and its
result carries the formatted user-facing message rendered from that
error. -/
theorem c5_handle_catches_and_renders (C : Collabs)
    (inputs options : List Input) (e : JsErr)
    (h : (runBuild C inputs options (watchModeOfOptions options) false).2
      = .error e) :
    handle C inputs options =
      .ok ((runBuild C inputs options (watchModeOfOptions options) false).1,
           some (formatCaughtError e)) := by
  rcases hr : runBuild C inputs options (watchModeOfOptions options) false
    with ⟨tr, res⟩
  rw [hr] at h
  simp only [] at h
  subst h
  simp [handle, hr]

/-- Concrete instantiation of `c5_handle_catches_and_renders`: with no
`config` option the run throws, and `handle` returns normally with the
rendered message. -/
theorem c5_handle_witness :
    (runBuild okCollabs [] [] (watchModeOfOptions []) false).2
      = .error (.errObj "Cannot read properties of undefined (reading value)") ∧
    handle okCollabs [] [] =
      .ok ((runBuild okCollabs [] [] (watchModeOfOptions []) false).1,
           some (formatCaughtError
             (.errObj "Cannot read properties of undefined (reading value)"))) :=
  ⟨rfl,
   c5_handle_catches_and_renders okCollabs [] []
     (.errObj "Cannot read properties of undefined (reading value)") rfl⟩

/-- C2.  With webpack enabled, when the resolved webpack-config path is
strictly different from the document default path and `require` fails on
the joined path, `runBuild` propagates that load error unchanged and no
compilation strategy is invoked in the call: the trace holds only the
cleanup and asset-copy invocations. -/
theorem c2_nondefault_load_failure_propagates (C : Collabs)
    (inputs options : List Input) (watchMode isDebugEnabled : Bool)
    (p : Prepared) (hprep : prepare C inputs options = .ok p)
    (hwb : jsTruthy p.isWebpackEnabled = true)
    (hdel : C.deleteOutDirIfEnabled p.configuration p.appName p.outDir = .ok ())
    (hcopy : C.copyAssets p.configuration p.appName p.outDir = .ok ())
    (co dp : JsValue)
    (hco : jsGetMember p.configuration "compilerOptions" = .ok co)
    (hdp : jsGetMember co "webpackConfigPath" = .ok dp)
    (s : String)
    (hjoin : jsJoin C.cwd
        (getValueOrDefault p.configuration "compilerOptions.webpackConfigPath"
          p.appName "webpackPath" options) = .ok s)
    (hneq : jsStrictEq
        (getValueOrDefault p.configuration "compilerOptions.webpackConfigPath"
          p.appName "webpackPath" options) dp = false)
    (e : JsErr) (hreq : C.requireModule s = .error e) :
    (runBuild C inputs options watchMode isDebugEnabled).2 = .error e ∧
    (runBuild C inputs options watchMode isDebugEnabled).1.countP
      isStrategyEvent = 0 := by
  simp [runBuild, dispatchPart, getWebpackConfigFactoryByPath, hprep, hwb,
    hdel, hcopy, hco, hdp, hjoin, hneq, hreq, List.countP_cons, isStrategyEvent]

/-- The configuration document of the C2 scenario: webpack enabled, default
webpack-config path `webpack.config.js`. -/
def c2Configuration : JsValue :=
  .vObj [("compilerOptions",
          .vObj [("webpack", .vBool true),
                 ("webpackConfigPath", .vStr "webpack.config.js")])]

/-- Collaborators of the C2 scenario: every pre-dispatch call succeeds and
`require` fails for every path. -/
def c2Collabs : Collabs where
  cwd := "/proj"
  loaderLoad := fun _ => .ok c2Configuration
  tsConfigGetByConfigFilename := fun _ => .ok (.vObj [("options", .vObj [])])
  deleteOutDirIfEnabled := fun _ _ _ => .ok ()
  copyAssets := fun _ _ _ => .ok ()
  requireModule := fun _ =>
    .error (.errObj "Cannot find module /proj/custom.webpack.js")
  webpackCompilerRun := fun _ _ _ _ _ _ => .ok ()
  watchCompilerRun := fun _ _ _ => .ok ()
  compilerRun := fun _ _ _ => .ok ()

/-- Options of the C2 scenario: an explicit non-default webpack path. -/
def c2Options : List Input :=
  [⟨"config", .vStr "nest-cli.json"⟩, ⟨"webpackPath", .vStr "custom.webpack.js"⟩]

/-- The values `prepare` computes in the C2 scenario. -/
def c2Prepared : Prepared :=
  ⟨c2Configuration, .vStr "api", .vUndefined, defaultOutDir, .vBool true⟩

/-- Concrete instantiation of `c2_nondefault_load_failure_propagates`. -/
theorem c2_nondefault_load_failure_witness :
    prepare c2Collabs sampleInputs c2Options = .ok c2Prepared ∧
    jsTruthy c2Prepared.isWebpackEnabled = true ∧
    c2Collabs.deleteOutDirIfEnabled c2Prepared.configuration
      c2Prepared.appName c2Prepared.outDir = .ok () ∧
    c2Collabs.copyAssets c2Prepared.configuration c2Prepared.appName
      c2Prepared.outDir = .ok () ∧
    jsGetMember c2Prepared.configuration "compilerOptions"
      = .ok (.vObj [("webpack", .vBool true),
                    ("webpackConfigPath", .vStr "webpack.config.js")]) ∧
    jsGetMember (.vObj [("webpack", .vBool true),
                        ("webpackConfigPath", .vStr "webpack.config.js")])
      "webpackConfigPath" = .ok (.vStr "webpack.config.js") ∧
    jsJoin c2Collabs.cwd
      (getValueOrDefault c2Prepared.configuration
        "compilerOptions.webpackConfigPath" c2Prepared.appName "webpackPath"
        c2Options) = .ok "/proj/custom.webpack.js" ∧
    jsStrictEq
      (getValueOrDefault c2Prepared.configuration
        "compilerOptions.webpackConfigPath" c2Prepared.appName "webpackPath"
        c2Options) (.vStr "webpack.config.js") = false ∧
    c2Collabs.requireModule "/proj/custom.webpack.js"
      = .error (.errObj "Cannot find module /proj/custom.webpack.js") ∧
    ((runBuild c2Collabs sampleInputs c2Options false false).2
      = .error (.errObj "Cannot find module /proj/custom.webpack.js") ∧
     (runBuild c2Collabs sampleInputs c2Options false false).1.countP
       isStrategyEvent = 0) :=
  ⟨rfl, rfl, rfl, rfl, rfl, rfl, rfl, rfl, rfl,
   c2_nondefault_load_failure_propagates c2Collabs sampleInputs c2Options
     false false c2Prepared rfl rfl rfl rfl
     (.vObj [("webpack", .vBool true),
             ("webpackConfigPath", .vStr "webpack.config.js")])
     (.vStr "webpack.config.js") rfl rfl "/proj/custom.webpack.js" rfl rfl
     (.errObj "Cannot find module /proj/custom.webpack.js") rfl⟩

/-- Strategy-event counts of the dispatch tail on a normal completion:
bundling when the resolved webpack value is truthy, otherwise watch or
one-shot according to the watch flag — exactly one in every case. -/
lemma dispatchPart_counts (C : Collabs) (p : Prepared) (options : List Input)
    (watchMode isDebugEnabled : Bool)
    (hok : (dispatchPart C p options watchMode isDebugEnabled).2 = .ok ()) :
    (jsTruthy p.isWebpackEnabled = true →
      ((dispatchPart C p options watchMode isDebugEnabled).1.countP
          isWebpackRunEvent = 1 ∧
       (dispatchPart C p options watchMode isDebugEnabled).1.countP
          isWatchRunEvent = 0 ∧
       (dispatchPart C p options watchMode isDebugEnabled).1.countP
          isCompilerRunEvent = 0)) ∧
    (jsTruthy p.isWebpackEnabled = false → watchMode = true →
      ((dispatchPart C p options watchMode isDebugEnabled).1.countP
          isWebpackRunEvent = 0 ∧
       (dispatchPart C p options watchMode isDebugEnabled).1.countP
          isWatchRunEvent = 1 ∧
       (dispatchPart C p options watchMode isDebugEnabled).1.countP
          isCompilerRunEvent = 0)) ∧
    (jsTruthy p.isWebpackEnabled = false → watchMode = false →
      ((dispatchPart C p options watchMode isDebugEnabled).1.countP
          isWebpackRunEvent = 0 ∧
       (dispatchPart C p options watchMode isDebugEnabled).1.countP
          isWatchRunEvent = 0 ∧
       (dispatchPart C p options watchMode isDebugEnabled).1.countP
          isCompilerRunEvent = 1)) := by
  refine ⟨?_, ?_, ?_⟩
  · intro hwb
    rcases hco : jsGetMember p.configuration "compilerOptions" with e | co
    · exfalso
      simp [dispatchPart, hwb, hco] at hok
    · rcases hdp : jsGetMember co "webpackConfigPath" with e | dp
      · exfalso
        simp [dispatchPart, hwb, hco, hdp] at hok
      · rcases hfac : getWebpackConfigFactoryByPath C.requireModule C.cwd
            (getValueOrDefault p.configuration
              "compilerOptions.webpackConfigPath" p.appName "webpackPath"
              options) dp with e | factory
        · exfalso
          simp [dispatchPart, hwb, hco, hdp, hfac] at hok
        · simp [dispatchPart, hwb, hco, hdp, hfac, List.countP_cons,
            isWebpackRunEvent, isWatchRunEvent, isCompilerRunEvent]
  · intro hwb hw
    subst hw
    simp [dispatchPart, hwb, List.countP_cons, isWebpackRunEvent,
      isWatchRunEvent, isCompilerRunEvent]
  · intro hwb hw
    subst hw
    simp [dispatchPart, hwb, List.countP_cons, isWebpackRunEvent,
      isWatchRunEvent, isCompilerRunEvent]

/-- C3.  On a normal completion of `runBuild`, exactly one compilation
strategy has been invoked, chosen by the documented three-way priority:
bundling when the resolved webpack value is truthy, otherwise watch when
the watch flag is set, otherwise one-shot — and the other two strategies
were not invoked in the same call. -/
theorem c3_exactly_one_strategy (C : Collabs) (inputs options : List Input)
    (watchMode isDebugEnabled : Bool) (p : Prepared)
    (hprep : prepare C inputs options = .ok p)
    (hok : (runBuild C inputs options watchMode isDebugEnabled).2 = .ok ()) :
    (jsTruthy p.isWebpackEnabled = true →
      ((runBuild C inputs options watchMode isDebugEnabled).1.countP
          isWebpackRunEvent = 1 ∧
       (runBuild C inputs options watchMode isDebugEnabled).1.countP
          isWatchRunEvent = 0 ∧
       (runBuild C inputs options watchMode isDebugEnabled).1.countP
          isCompilerRunEvent = 0)) ∧
    (jsTruthy p.isWebpackEnabled = false → watchMode = true →
      ((runBuild C inputs options watchMode isDebugEnabled).1.countP
          isWebpackRunEvent = 0 ∧
       (runBuild C inputs options watchMode isDebugEnabled).1.countP
          isWatchRunEvent = 1 ∧
       (runBuild C inputs options watchMode isDebugEnabled).1.countP
          isCompilerRunEvent = 0)) ∧
    (jsTruthy p.isWebpackEnabled = false → watchMode = false →
      ((runBuild C inputs options watchMode isDebugEnabled).1.countP
          isWebpackRunEvent = 0 ∧
       (runBuild C inputs options watchMode isDebugEnabled).1.countP
          isWatchRunEvent = 0 ∧
       (runBuild C inputs options watchMode isDebugEnabled).1.countP
          isCompilerRunEvent = 1)) := by
  rcases hdel : C.deleteOutDirIfEnabled p.configuration p.appName p.outDir
    with e | u
  · exfalso
    simp [runBuild, hprep, hdel] at hok
  · cases u
    rcases hcopy : C.copyAssets p.configuration p.appName p.outDir with e | u2
    · exfalso
      simp [runBuild, hprep, hdel, hcopy] at hok
    · cases u2
      have hrb1 : (runBuild C inputs options watchMode isDebugEnabled).1 =
          Event.deleteOutDir p.appName p.outDir ::
            Event.copyAssets p.appName p.outDir ::
            (dispatchPart C p options watchMode isDebugEnabled).1 := by
        simp [runBuild, hprep, hdel, hcopy]
      have hok2 :
          (dispatchPart C p options watchMode isDebugEnabled).2 = .ok () := by
        have hx : (runBuild C inputs options watchMode isDebugEnabled).2 =
            (dispatchPart C p options watchMode isDebugEnabled).2 := by
          simp [runBuild, hprep, hdel, hcopy]
        rw [hx] at hok
        exact hok
      have hcounts :=
        dispatchPart_counts C p options watchMode isDebugEnabled hok2
      refine ⟨?_, ?_, ?_⟩
      · intro hwb
        obtain ⟨h1, h2, h3⟩ := hcounts.1 hwb
        refine ⟨?_, ?_, ?_⟩
        · rw [hrb1]
          simp only [List.countP_cons]
          rw [h1]
          simp [isWebpackRunEvent]
        · rw [hrb1]
          simp only [List.countP_cons]
          rw [h2]
          simp [isWatchRunEvent]
        · rw [hrb1]
          simp only [List.countP_cons]
          rw [h3]
          simp [isCompilerRunEvent]
      · intro hwb hw
        obtain ⟨h1, h2, h3⟩ := hcounts.2.1 hwb hw
        refine ⟨?_, ?_, ?_⟩
        · rw [hrb1]
          simp only [List.countP_cons]
          rw [h1]
          simp [isWebpackRunEvent]
        · rw [hrb1]
          simp only [List.countP_cons]
          rw [h2]
          simp [isWatchRunEvent]
        · rw [hrb1]
          simp only [List.countP_cons]
          rw [h3]
          simp [isCompilerRunEvent]
      · intro hwb hw
        obtain ⟨h1, h2, h3⟩ := hcounts.2.2 hwb hw
        refine ⟨?_, ?_, ?_⟩
        · rw [hrb1]
          simp only [List.countP_cons]
          rw [h1]
          simp [isWebpackRunEvent]
        · rw [hrb1]
          simp only [List.countP_cons]
          rw [h2]
          simp [isWatchRunEvent]
        · rw [hrb1]
          simp only [List.countP_cons]
          rw [h3]
          simp [isCompilerRunEvent]

/-- The values `prepare` computes in the default all-success scenario. -/
def samplePrepared : Prepared :=
  ⟨sampleConfiguration, .vStr "api", .vStr "tsconfig.build.json",
   .vStr "build", .vUndefined⟩

/-- Concrete instantiation of `c3_exactly_one_strategy`: webpack disabled,
watch off, so exactly the one-shot strategy runs. -/
theorem c3_exactly_one_witness :
    prepare okCollabs sampleInputs sampleOptions = .ok samplePrepared ∧
    (runBuild okCollabs sampleInputs sampleOptions false false).2 = .ok () ∧
    ((jsTruthy samplePrepared.isWebpackEnabled = true →
      ((runBuild okCollabs sampleInputs sampleOptions false false).1.countP
          isWebpackRunEvent = 1 ∧
       (runBuild okCollabs sampleInputs sampleOptions false false).1.countP
          isWatchRunEvent = 0 ∧
       (runBuild okCollabs sampleInputs sampleOptions false false).1.countP
          isCompilerRunEvent = 0)) ∧
     (jsTruthy samplePrepared.isWebpackEnabled = false → false = true →
      ((runBuild okCollabs sampleInputs sampleOptions false false).1.countP
          isWebpackRunEvent = 0 ∧
       (runBuild okCollabs sampleInputs sampleOptions false false).1.countP
          isWatchRunEvent = 1 ∧
       (runBuild okCollabs sampleInputs sampleOptions false false).1.countP
          isCompilerRunEvent = 0)) ∧
     (jsTruthy samplePrepared.isWebpackEnabled = false → false = false →
      ((runBuild okCollabs sampleInputs sampleOptions false false).1.countP
          isWebpackRunEvent = 0 ∧
       (runBuild okCollabs sampleInputs sampleOptions false false).1.countP
          isWatchRunEvent = 0 ∧
       (runBuild okCollabs sampleInputs sampleOptions false false).1.countP
          isCompilerRunEvent = 1))) :=
  ⟨rfl, rfl,
   c3_exactly_one_strategy okCollabs sampleInputs sampleOptions false false
     samplePrepared rfl rfl⟩

/-- C4.  In every run whose trace contains a strategy invocation, the trace
begins with the output-directory deletion followed by the asset copy (both
with the resolved application name and output directory), and the strategy
event lies strictly after those two: cleanup and asset copy have both
executed, in that order, before any strategy is invoked. -/
theorem c4_cleanup_and_copy_precede_dispatch (C : Collabs)
    (inputs options : List Input) (watchMode isDebugEnabled : Bool)
    (p : Prepared) (hprep : prepare C inputs options = .ok p) (ev : Event)
    (hmem : ev ∈ (runBuild C inputs options watchMode isDebugEnabled).1)
    (hstrat : isStrategyEvent ev = true) :
    (runBuild C inputs options watchMode isDebugEnabled).1 =
      Event.deleteOutDir p.appName p.outDir ::
        Event.copyAssets p.appName p.outDir ::
        ((runBuild C inputs options watchMode isDebugEnabled).1.drop 2) ∧
    ev ∈ (runBuild C inputs options watchMode isDebugEnabled).1.drop 2 := by
  rcases hdel : C.deleteOutDirIfEnabled p.configuration p.appName p.outDir
    with e | u
  · exfalso
    have htr : (runBuild C inputs options watchMode isDebugEnabled).1 =
        [Event.deleteOutDir p.appName p.outDir] := by
      simp [runBuild, hprep, hdel]
    rw [htr] at hmem
    simp only [List.mem_singleton] at hmem
    subst hmem
    simp [isStrategyEvent] at hstrat
  · cases u
    rcases hcopy : C.copyAssets p.configuration p.appName p.outDir with e | u2
    · exfalso
      have htr : (runBuild C inputs options watchMode isDebugEnabled).1 =
          [Event.deleteOutDir p.appName p.outDir,
           Event.copyAssets p.appName p.outDir] := by
        simp [runBuild, hprep, hdel, hcopy]
      rw [htr] at hmem
      simp only [List.mem_cons, List.mem_singleton, List.not_mem_nil,
        or_false] at hmem
      rcases hmem with hmem | hmem <;>
        (subst hmem; simp [isStrategyEvent] at hstrat)
    · cases u2
      have hrb1 : (runBuild C inputs options watchMode isDebugEnabled).1 =
          Event.deleteOutDir p.appName p.outDir ::
            Event.copyAssets p.appName p.outDir ::
            (dispatchPart C p options watchMode isDebugEnabled).1 := by
        simp [runBuild, hprep, hdel, hcopy]
      rw [hrb1] at hmem
      rw [hrb1]
      simp only [List.drop_succ_cons, List.drop_zero]
      refine ⟨trivial, ?_⟩
      simp only [List.mem_cons] at hmem
      rcases hmem with hmem | hmem | hmem
      · subst hmem
        simp [isStrategyEvent] at hstrat
      · subst hmem
        simp [isStrategyEvent] at hstrat
      · exact hmem

/-- Concrete instantiation of `c4_cleanup_and_copy_precede_dispatch`: the
one-shot strategy event follows the cleanup and copy events. -/
theorem c4_cleanup_witness :
    prepare okCollabs sampleInputs sampleOptions = .ok samplePrepared ∧
    Event.compilerRun (.vStr "tsconfig.build.json") (.vStr "api") ∈
      (runBuild okCollabs sampleInputs sampleOptions false false).1 ∧
    isStrategyEvent
      (Event.compilerRun (.vStr "tsconfig.build.json") (.vStr "api")) = true ∧
    ((runBuild okCollabs sampleInputs sampleOptions false false).1 =
      Event.deleteOutDir samplePrepared.appName samplePrepared.outDir ::
        Event.copyAssets samplePrepared.appName samplePrepared.outDir ::
        ((runBuild okCollabs sampleInputs sampleOptions false false).1.drop 2) ∧
     Event.compilerRun (.vStr "tsconfig.build.json") (.vStr "api") ∈
       (runBuild okCollabs sampleInputs sampleOptions false false).1.drop 2) :=
  ⟨rfl, List.Mem.tail _ (List.Mem.tail _ (List.Mem.head _)), rfl,
   c4_cleanup_and_copy_precede_dispatch okCollabs sampleInputs sampleOptions
     false false samplePrepared rfl
     (Event.compilerRun (.vStr "tsconfig.build.json") (.vStr "api"))
     (List.Mem.tail _ (List.Mem.tail _ (List.Mem.head _))) rfl⟩

/-- Collaborators of the C6 counterexample scenario: the tsconfig provider
returns a descriptor that declares the output directory as the empty
string. -/
def c6Collabs : Collabs where
  cwd := "/proj"
  loaderLoad := fun _ => .ok sampleConfiguration
  tsConfigGetByConfigFilename := fun _ =>
    .ok (.vObj [("options", .vObj [("outDir", .vStr "")])])
  deleteOutDirIfEnabled := fun _ _ _ => .ok ()
  copyAssets := fun _ _ _ => .ok ()
  requireModule := fun _ => .ok (.vObj [])
  webpackCompilerRun := fun _ _ _ _ _ _ => .ok ()
  watchCompilerRun := fun _ _ _ => .ok ()
  compilerRun := fun _ _ _ => .ok ()

/-- C6.  The claim states that the output directory passed to cleanup and
asset copy equals the descriptor's declared output directory whenever one
is declared.  The source computes `tsOptions.outDir || defaultOutDir` with
JavaScript truthiness, so a declared but empty-string output directory is
replaced by the default: here the descriptor declares `outDir` as the empty
string, yet both cleanup and asset copy receive `defaultOutDir`, which
differs from the declared value. -/
theorem c6_counterexample :
    c6Collabs.tsConfigGetByConfigFilename (.vStr "tsconfig.build.json")
      = .ok (.vObj [("options", .vObj [("outDir", .vStr "")])]) ∧
    (runBuild c6Collabs sampleInputs sampleOptions false false).1 =
      [Event.deleteOutDir (.vStr "api") defaultOutDir,
       Event.copyAssets (.vStr "api") defaultOutDir,
       Event.compilerRun (.vStr "tsconfig.build.json") (.vStr "api")] ∧
    defaultOutDir ≠ JsValue.vStr "" := by
  refine ⟨rfl, rfl, ?_⟩
  simp [defaultOutDir]

/-- C6 (amended).  The output directory passed to both the cleanup and the
asset copy equals the descriptor's declared output directory when that
declared value is truthy (a non-empty string), and equals the process-wide
default constant `defaultOutDir` when the descriptor declares none or
declares a falsy value (such as the empty string). -/
theorem c6_outdir_truthy_or_default (C : Collabs)
    (inputs options : List Input) (watchMode isDebugEnabled : Bool)
    (configInput : Input) (hfc : findOption options "config" = some configInput)
    (cfg : JsValue) (hload : C.loaderLoad configInput.value = .ok cfg)
    (appInput : Input) (hfa : findOption inputs "app" = some appInput)
    (tsResult tsOptions outDirRaw : JsValue)
    (hts : C.tsConfigGetByConfigFilename
        (getValueOrDefault cfg "compilerOptions.tsConfigPath" appInput.value
          "path" options) = .ok tsResult)
    (hopts : jsGetMember tsResult "options" = .ok tsOptions)
    (hraw : jsGetMember tsOptions "outDir" = .ok outDirRaw)
    (hdel : C.deleteOutDirIfEnabled cfg appInput.value
        (if jsTruthy outDirRaw then outDirRaw else defaultOutDir) = .ok ()) :
    (jsTruthy outDirRaw = true →
      (runBuild C inputs options watchMode isDebugEnabled).1.take 2 =
        [Event.deleteOutDir appInput.value outDirRaw,
         Event.copyAssets appInput.value outDirRaw]) ∧
    (jsTruthy outDirRaw = false →
      (runBuild C inputs options watchMode isDebugEnabled).1.take 2 =
        [Event.deleteOutDir appInput.value defaultOutDir,
         Event.copyAssets appInput.value defaultOutDir]) := by
  have hprep : prepare C inputs options =
      .ok ⟨cfg, appInput.value,
           getValueOrDefault cfg "compilerOptions.tsConfigPath" appInput.value
             "path" options,
           (if jsTruthy outDirRaw then outDirRaw else defaultOutDir),
           getValueOrDefault cfg "compilerOptions.webpack" appInput.value
             "webpack" options⟩ := by
    simp [prepare, hfc, hload, hfa, hts, hopts, hraw]
  constructor
  · intro h
    rw [h] at hprep hdel
    simp only [if_true] at hprep hdel
    rcases hcopy : C.copyAssets cfg appInput.value outDirRaw with e | u
    · simp [runBuild, hprep, hdel, hcopy]
    · cases u
      simp [runBuild, hprep, hdel, hcopy]
  · intro h
    rw [h] at hprep hdel
    simp only [Bool.false_eq_true, if_false] at hprep hdel
    rcases hcopy : C.copyAssets cfg appInput.value defaultOutDir with e | u
    · simp [runBuild, hprep, hdel, hcopy]
    · cases u
      simp [runBuild, hprep, hdel, hcopy]

/-- Concrete instantiation of `c6_outdir_truthy_or_default` (declared
directory `build`, truthy, so the declared value is used). -/
theorem c6_outdir_witness :
    findOption sampleOptions "config" = some ⟨"config", .vStr "nest-cli.json"⟩ ∧
    okCollabs.loaderLoad (.vStr "nest-cli.json") = .ok sampleConfiguration ∧
    findOption sampleInputs "app" = some ⟨"app", .vStr "api"⟩ ∧
    okCollabs.tsConfigGetByConfigFilename
      (getValueOrDefault sampleConfiguration "compilerOptions.tsConfigPath"
        (.vStr "api") "path" sampleOptions)
      = .ok (.vObj [("options", .vObj [("outDir", .vStr "build")])]) ∧
    jsGetMember (.vObj [("options", .vObj [("outDir", .vStr "build")])])
      "options" = .ok (.vObj [("outDir", .vStr "build")]) ∧
    jsGetMember (.vObj [("outDir", .vStr "build")]) "outDir"
      = .ok (.vStr "build") ∧
    okCollabs.deleteOutDirIfEnabled sampleConfiguration (.vStr "api")
      (if jsTruthy (.vStr "build") then .vStr "build" else defaultOutDir)
      = .ok () ∧
    ((jsTruthy (JsValue.vStr "build") = true →
      (runBuild okCollabs sampleInputs sampleOptions false false).1.take 2 =
        [Event.deleteOutDir (.vStr "api") (.vStr "build"),
         Event.copyAssets (.vStr "api") (.vStr "build")]) ∧
     (jsTruthy (JsValue.vStr "build") = false →
      (runBuild okCollabs sampleInputs sampleOptions false false).1.take 2 =
        [Event.deleteOutDir (.vStr "api") defaultOutDir,
         Event.copyAssets (.vStr "api") defaultOutDir])) :=
  ⟨rfl, rfl, rfl, rfl, rfl, rfl, rfl,
   c6_outdir_truthy_or_default okCollabs sampleInputs sampleOptions false false
     ⟨"config", .vStr "nest-cli.json"⟩ rfl sampleConfiguration rfl
     ⟨"app", .vStr "api"⟩ rfl
     (.vObj [("options", .vObj [("outDir", .vStr "build")])])
     (.vObj [("outDir", .vStr "build")]) (.vStr "build") rfl rfl rfl rfl⟩

/-- C9.  In the webpack-enabled branch, the default path is read by the
unchecked accesses `configuration.compilerOptions!.webpackConfigPath!`.
When the loaded configuration is an object with no `compilerOptions`
section, the first access yields `undefined` and the second throws a
`TypeError`, so `runBuild` fails with that error before any webpack-config
load is attempted (the outcome is independent of the injected `require`)
and before any strategy is invoked. -/
theorem c9_missing_compiler_options_throws (C : Collabs)
    (inputs options : List Input) (watchMode isDebugEnabled : Bool)
    (req : String → Except JsErr JsValue)
    (p : Prepared) (hprep : prepare C inputs options = .ok p)
    (hwb : jsTruthy p.isWebpackEnabled = true)
    (hdel : C.deleteOutDirIfEnabled p.configuration p.appName p.outDir = .ok ())
    (hcopy : C.copyAssets p.configuration p.appName p.outDir = .ok ())
    (fs : List (String × JsValue)) (hcfg : p.configuration = .vObj fs)
    (hnone : lookupField fs "compilerOptions" = none) :
    (runBuild C inputs options watchMode isDebugEnabled).2 =
      .error (.errObj
        "Cannot read properties of undefined (reading webpackConfigPath)") ∧
    (runBuild C inputs options watchMode isDebugEnabled).1.countP
      isStrategyEvent = 0 ∧
    runBuild { C with requireModule := req } inputs options watchMode
      isDebugEnabled = runBuild C inputs options watchMode isDebugEnabled := by
  have hco : jsGetMember p.configuration "compilerOptions" = .ok .vUndefined := by
    rw [hcfg]
    simp [jsGetMember, hnone]
  have hdp : jsGetMember JsValue.vUndefined "webpackConfigPath" =
      .error (.errObj
        "Cannot read properties of undefined (reading webpackConfigPath)") := rfl
  have h1 : runBuild C inputs options watchMode isDebugEnabled =
      ([Event.deleteOutDir p.appName p.outDir,
        Event.copyAssets p.appName p.outDir],
       .error (.errObj
         "Cannot read properties of undefined (reading webpackConfigPath)")) := by
    simp [runBuild, dispatchPart, hprep, hwb, hdel, hcopy, hco, hdp]
  have hprep2 : prepare { C with requireModule := req } inputs options
      = .ok p := hprep
  have hdel2 : ({ C with requireModule := req } : Collabs).deleteOutDirIfEnabled
      p.configuration p.appName p.outDir = .ok () := hdel
  have hcopy2 : ({ C with requireModule := req } : Collabs).copyAssets
      p.configuration p.appName p.outDir = .ok () := hcopy
  have h2 : runBuild { C with requireModule := req } inputs options watchMode
      isDebugEnabled =
      ([Event.deleteOutDir p.appName p.outDir,
        Event.copyAssets p.appName p.outDir],
       .error (.errObj
         "Cannot read properties of undefined (reading webpackConfigPath)")) := by
    simp [runBuild, dispatchPart, hprep2, hwb, hdel, hdel2, hcopy, hcopy2,
      hco, hdp]
  refine ⟨?_, ?_, ?_⟩
  · rw [h1]
  · rw [h1]
    simp [List.countP_cons, isStrategyEvent]
  · rw [h1, h2]

/-- Collaborators of the C9 witness scenario: the loader returns a
configuration object with no `compilerOptions` section. -/
def c9Collabs : Collabs where
  cwd := "/proj"
  loaderLoad := fun _ => .ok (.vObj [])
  tsConfigGetByConfigFilename := fun _ => .ok (.vObj [("options", .vObj [])])
  deleteOutDirIfEnabled := fun _ _ _ => .ok ()
  copyAssets := fun _ _ _ => .ok ()
  requireModule := fun _ => .ok (.vObj [])
  webpackCompilerRun := fun _ _ _ _ _ _ => .ok ()
  watchCompilerRun := fun _ _ _ => .ok ()
  compilerRun := fun _ _ _ => .ok ()

/-- Options of the C9 witness scenario: webpack enabled by a command-line
option, so the webpack branch is reached although the configuration has no
`compilerOptions` section. -/
def c9Options : List Input :=
  [⟨"config", .vStr "nest-cli.json"⟩, ⟨"webpack", .vBool true⟩]

/-- The values `prepare` computes in the C9 witness scenario. -/
def c9Prepared : Prepared :=
  ⟨.vObj [], .vStr "api", .vUndefined, defaultOutDir, .vBool true⟩

/-- Concrete instantiation of `c9_missing_compiler_options_throws`. -/
theorem c9_missing_section_witness :
    prepare c9Collabs sampleInputs c9Options = .ok c9Prepared ∧
    jsTruthy c9Prepared.isWebpackEnabled = true ∧
    c9Collabs.deleteOutDirIfEnabled c9Prepared.configuration
      c9Prepared.appName c9Prepared.outDir = .ok () ∧
    c9Collabs.copyAssets c9Prepared.configuration c9Prepared.appName
      c9Prepared.outDir = .ok () ∧
    c9Prepared.configuration = .vObj [] ∧
    lookupField [] "compilerOptions" = none ∧
    ((runBuild c9Collabs sampleInputs c9Options false false).2 =
      .error (.errObj
        "Cannot read properties of undefined (reading webpackConfigPath)") ∧
     (runBuild c9Collabs sampleInputs c9Options false false).1.countP
       isStrategyEvent = 0 ∧
     runBuild { c9Collabs with
         requireModule := fun _ => .error (.errObj "must not be consulted") }
       sampleInputs c9Options false false =
       runBuild c9Collabs sampleInputs c9Options false false) :=
  ⟨rfl, rfl, rfl, rfl, rfl, rfl,
   c9_missing_compiler_options_throws c9Collabs sampleInputs c9Options false
     false (fun _ => .error (.errObj "must not be consulted")) c9Prepared rfl
     rfl rfl rfl [] rfl rfl⟩
